import Mathlib

/-!
Shallow embedding of the `null` package (github.com/alsiberij/alsnull): a generic
nullable container `Type[T]` / `Nullable[T]` with JSON marshal/unmarshal entry
points and `database/sql` `driver.Valuer` / `sql.Scanner` implementations.

Go types are modelled by a closed code `Ty` covering the twelve kinds handled by
`Nullable.Value` / `Nullable.Scan` (src/nullable.go) plus `other`, standing for
any Go type outside that set.  Machine integers are modelled as `Int` / `Nat`
with explicit wrap-around functions at every Go conversion that can change the
value; IEEE floats are modelled as rational-number wrappers (`F32`, `F64`): the
only float operation the code performs besides assignment is the exact widening
`float64(float32)`; the lossy narrowing `float32(float64)` in `Scan` is modelled
as the identity on the rational carrier and no theorem below depends on the
value it produces.  Go `string` is modelled as `String` and `[]byte` as
`List Char`, so the byte-level conversions `string(b)` / `[]byte(s)` become
`String.mk` / `String.toList`.  Byte slices returned by marshalling are
modelled as `String`; Go errors as `Err := String`; a `nil` `driver.Value` as
`none : Option DriverValue`.
-/

namespace Alsnull

/-- Codes for the Go types the package's storage adapter switches on
(src/nullable.go `Value` and `Scan`), plus `other` for any unsupported type. -/
inductive Ty where
  | int
  | int32
  | int64
  | uint
  | uint32
  | uint64
  | float32
  | float64
  | bool
  | bytes
  | string
  | time
  | other
  deriving DecidableEq, Repr

/-- Carrier for Go `float32` values: the rational value held by the float. -/
structure F32 where
  q : ℚ
  deriving DecidableEq, Repr

/-- Carrier for Go `float64` values: the rational value held by the float. -/
structure F64 where
  q : ℚ
  deriving DecidableEq, Repr

/-- The Lean carrier of each Go type code.  Signed integer kinds carry `Int`,
unsigned kinds carry `Nat`; `time.Time` is abstracted as an `Int` instant;
`other` carries `Nat` as an arbitrary inhabited stand-in. -/
@[reducible] def Ty.denote : Ty → Type
  | .int => Int
  | .int32 => Int
  | .int64 => Int
  | .uint => Nat
  | .uint32 => Nat
  | .uint64 => Nat
  | .float32 => F32
  | .float64 => F64
  | .bool => Bool
  | .bytes => List Char
  | .string => String
  | .time => Int
  | .other => Nat

/-- The Go zero value (`var v T`) of each type code. -/
def Ty.zero : (t : Ty) → t.denote
  | .int => (0 : Int)
  | .int32 => (0 : Int)
  | .int64 => (0 : Int)
  | .uint => (0 : Nat)
  | .uint32 => (0 : Nat)
  | .uint64 => (0 : Nat)
  | .float32 => ⟨0⟩
  | .float64 => ⟨0⟩
  | .bool => false
  | .bytes => []
  | .string => ""
  | .time => (0 : Int)
  | .other => (0 : Nat)

instance Ty.decEqDenote : (t : Ty) → DecidableEq t.denote
  | .int => inferInstanceAs (DecidableEq Int)
  | .int32 => inferInstanceAs (DecidableEq Int)
  | .int64 => inferInstanceAs (DecidableEq Int)
  | .uint => inferInstanceAs (DecidableEq Nat)
  | .uint32 => inferInstanceAs (DecidableEq Nat)
  | .uint64 => inferInstanceAs (DecidableEq Nat)
  | .float32 => inferInstanceAs (DecidableEq F32)
  | .float64 => inferInstanceAs (DecidableEq F64)
  | .bool => inferInstanceAs (DecidableEq Bool)
  | .bytes => inferInstanceAs (DecidableEq (List Char))
  | .string => inferInstanceAs (DecidableEq String)
  | .time => inferInstanceAs (DecidableEq Int)
  | .other => inferInstanceAs (DecidableEq Nat)

/-- The container `Type[T] struct { value T; ok bool }` (and its embedding
wrapper `Nullable[T]`, which adds no fields). -/
structure NullType (t : Ty) where
  value : t.denote
  ok : Bool

/-- `NewType(value, ok)`: `e := Type[T]{ok: ok}; if ok { e.value = value }`. -/
def NewType (t : Ty) (value : t.denote) (ok : Bool) : NullType t :=
  if ok then ⟨value, true⟩ else ⟨t.zero, false⟩

/-- `NewTypeWithValue(value)` / `TypeValue(value)`: a present container. -/
def TypeValue (t : Ty) (value : t.denote) : NullType t :=
  ⟨value, true⟩

/-- `TypeValueFromPtr(valuePtr)`: nil pointer gives the null container. -/
def TypeValueFromPtr (t : Ty) : Option t.denote → NullType t
  | none => ⟨t.zero, false⟩
  | some v => ⟨v, true⟩

/-- `NullableValue(value)`: a present `Nullable`. -/
def NullableValue (t : Ty) (value : t.denote) : NullType t :=
  ⟨value, true⟩

/-- `NullableValueFromPtr(valuePtr)`. -/
def NullableValueFromPtr (t : Ty) : Option t.denote → NullType t
  | none => ⟨t.zero, false⟩
  | some v => ⟨v, true⟩

/-- `DefaultValue()`: `var v T; return v`. -/
def DefaultValue (t : Ty) : t.denote :=
  t.zero

/-- `RawValue()`: `if !s.ok { return s.DefaultValue() }; return s.value`. -/
def RawValue {t : Ty} (s : NullType t) : t.denote :=
  if !s.ok then DefaultValue t else s.value

/-- `IsNull()`: `return !s.ok`. -/
def IsNull {t : Ty} (s : NullType t) : Bool :=
  !s.ok

/-- `SetNull()`: `s.ok = false; s.value = s.DefaultValue()`. -/
def SetNull {t : Ty} (_ : NullType t) : NullType t :=
  ⟨DefaultValue t, false⟩

/-- `SetValue(v)`: `s.ok = true; s.value = v`. -/
def SetValue {t : Ty} (_ : NullType t) (v : t.denote) : NullType t :=
  ⟨v, true⟩

/-- `SetValueFromPtr(valuePtr)`. -/
def SetValueFromPtr {t : Ty} (s : NullType t) : Option t.denote → NullType t
  | none => ⟨DefaultValue t, false⟩
  | some v => SetValue s v

/-- `CheckedValue()`: `(value, true)` when present, `(zero, false)` when null. -/
def CheckedValue {t : Ty} (s : NullType t) : t.denote × Bool :=
  if !s.ok then (DefaultValue t, false) else (s.value, true)

/-- `Equal(v)` from the historical `Type[T SupportedTypes]` variant
(src/unnamed/part_000 lines 74-77):
`return s.ok && v.ok && (!s.ok || s.value == v.value)`. -/
def Equal {t : Ty} (s v : NullType t) : Bool :=
  s.ok && v.ok && (!s.ok || decide (s.value = v.value))

/-- Go errors, abstracted as their message. -/
abbrev Err := String

/-- The constant `nullString = "null"` (src/unnamed/part_003), whose bytes are
`nullBytes`. -/
def nullString : String :=
  "null"

/-- `Nullable.MarshalJSON` (src/nullable.go lines 42-48) and
`Type.MarshalJSON` (src/unnamed/part_000 lines 80-86): when null, return
`nullBytes`; otherwise hand the value to the marshal hook (`json.Marshal`
resp. `JsonMarshaler`) and return its output directly. -/
def MarshalJSON {t : Ty} (enc : t.denote → Except Err String) (s : NullType t) :
    Except Err String :=
  if !s.ok then Except.ok nullString else enc s.value

/-- `Nullable.UnmarshalJSON` (src/nullable.go lines 50-67) and
`Type.UnmarshalJSON` (src/unnamed/part_000 lines 89-107): on input equal to
`nullString` reset the value and clear `ok`; otherwise run the unmarshal hook
(`json.Unmarshal` resp. `JsonUnmarshaler`) into a fresh `T`, propagating its
error with the receiver untouched, and on success store the value with
`ok = true`.  The mutation is modelled by returning the error slot together
with the updated container. -/
def UnmarshalJSON {t : Ty} (dec : String → Except Err t.denote) (s : NullType t)
    (b : String) : Option Err × NullType t :=
  if b = nullString then
    (none, ⟨DefaultValue t, false⟩)
  else
    match dec b with
    | Except.error e => (some e, s)
    | Except.ok v => (none, ⟨v, true⟩)

/-- A non-nil `driver.Value`: one of the six wire kinds exchanged with the
storage driver. -/
inductive DriverValue where
  | int64 (v : Int)
  | float64 (v : F64)
  | bool (v : Bool)
  | bytes (v : List Char)
  | string (v : String)
  | time (v : Int)
  deriving DecidableEq, Repr

/-- `ErrTypeIsNotSupported` (src/unnamed/part_003). -/
inductive ValueError where
  | typeIsNotSupported
  deriving DecidableEq, Repr

/-- `ErrScanningTypeMismatch` (src/unnamed/part_003). -/
inductive ScanError where
  | scanningTypeMismatch
  deriving DecidableEq, Repr

/-- Go's `int64(v)` applied to a `uint` or `uint64` value: two's-complement
reinterpretation, i.e. reduction modulo 2^64 into [-2^63, 2^63).  Written with
the literals 2^63 = 9223372036854775808 and 2^64 = 18446744073709551616. -/
def int64OfUnsigned (n : Nat) : Int :=
  ((n : Int) + 9223372036854775808) % 18446744073709551616 - 9223372036854775808

/-- Go's `int32(v)` applied to an `int64` value: reduction modulo 2^32 into
[-2^31, 2^31), with literals 2^31 = 2147483648 and 2^32 = 4294967296. -/
def int32OfInt64 (v : Int) : Int :=
  (v + 2147483648) % 4294967296 - 2147483648

/-- Go's `uint(v)` / `uint64(v)` applied to an `int64` value: reduction modulo
2^64 = 18446744073709551616 into [0, 2^64). -/
def uint64OfInt64 (v : Int) : Nat :=
  (v % 18446744073709551616).toNat

/-- Go's `uint32(v)` applied to an `int64` value: reduction modulo
2^32 = 4294967296. -/
def uint32OfInt64 (v : Int) : Nat :=
  (v % 4294967296).toNat

/-- Go's exact widening `float64(v)` of a `float32` value. -/
def float64OfFloat32 (x : F32) : F64 :=
  ⟨x.q⟩

/-- Go's narrowing `float32(v)` of a `float64` value.  IEEE rounding is not
modelled: the rational carrier is kept; no theorem depends on this value. -/
def float32OfFloat64 (x : F64) : F32 :=
  ⟨x.q⟩

/-- The type switch of `Nullable.Value` (src/nullable.go lines 74-101): map the
stored value to its driver representation, widening narrow numeric kinds to the
64-bit carriers, or fail with `ErrTypeIsNotSupported` on the default branch.
Go `int` is 64-bit here, so `int64(v)` on `int`/`int32` values is exact, as is
`int64(v)` on `uint32` values. -/
def toDriver : (t : Ty) → t.denote → Except ValueError DriverValue
  | .int, v => Except.ok (DriverValue.int64 v)
  | .int32, v => Except.ok (DriverValue.int64 v)
  | .int64, v => Except.ok (DriverValue.int64 v)
  | .uint, v => Except.ok (DriverValue.int64 (int64OfUnsigned v))
  | .uint32, v => Except.ok (DriverValue.int64 (Int.ofNat v))
  | .uint64, v => Except.ok (DriverValue.int64 (int64OfUnsigned v))
  | .float32, v => Except.ok (DriverValue.float64 (float64OfFloat32 v))
  | .float64, v => Except.ok (DriverValue.float64 v)
  | .bool, v => Except.ok (DriverValue.bool v)
  | .bytes, v => Except.ok (DriverValue.bytes v)
  | .string, v => Except.ok (DriverValue.string v)
  | .time, v => Except.ok (DriverValue.time v)
  | .other, _ => Except.error ValueError.typeIsNotSupported

/-- `Nullable.Value` (src/nullable.go lines 71-108): first run the type switch
on the stored value (possibly failing with `ErrTypeIsNotSupported`), and only
then return the nil driver value when the container is null. -/
def Value {t : Ty} (s : NullType t) : Except ValueError (Option DriverValue) :=
  match toDriver t s.value with
  | Except.error e => Except.error e
  | Except.ok dv => if !s.ok then Except.ok none else Except.ok (some dv)

/-- `Nullable.Scan` (src/nullable.go lines 112-263): switch on the declared
type `T`.  For each supported `T`: a nil `src` resets the value and clears
`ok`; a `src` of the one accepted wire kind (with `string`/`[]byte` accepting
each other) is converted to `T` and stored with `ok = true`; any other wire
kind falls through the failed type assertion, leaving the receiver untouched
and returning a nil error.  The default branch (unsupported `T`) returns
`ErrScanningTypeMismatch`. -/
def Scan : {t : Ty} → NullType t → Option DriverValue → Option ScanError × NullType t
  | .int, _, none => (none, ⟨Ty.zero .int, false⟩)
  | .int, _, some (DriverValue.int64 v) => (none, ⟨v, true⟩)
  | .int, s, some _ => (none, s)
  | .int32, _, none => (none, ⟨Ty.zero .int32, false⟩)
  | .int32, _, some (DriverValue.int64 v) => (none, ⟨int32OfInt64 v, true⟩)
  | .int32, s, some _ => (none, s)
  | .int64, _, none => (none, ⟨Ty.zero .int64, false⟩)
  | .int64, _, some (DriverValue.int64 v) => (none, ⟨v, true⟩)
  | .int64, s, some _ => (none, s)
  | .uint, _, none => (none, ⟨Ty.zero .uint, false⟩)
  | .uint, _, some (DriverValue.int64 v) => (none, ⟨uint64OfInt64 v, true⟩)
  | .uint, s, some _ => (none, s)
  | .uint32, _, none => (none, ⟨Ty.zero .uint32, false⟩)
  | .uint32, _, some (DriverValue.int64 v) => (none, ⟨uint32OfInt64 v, true⟩)
  | .uint32, s, some _ => (none, s)
  | .uint64, _, none => (none, ⟨Ty.zero .uint64, false⟩)
  | .uint64, _, some (DriverValue.int64 v) => (none, ⟨uint64OfInt64 v, true⟩)
  | .uint64, s, some _ => (none, s)
  | .float32, _, none => (none, ⟨Ty.zero .float32, false⟩)
  | .float32, _, some (DriverValue.float64 v) => (none, ⟨float32OfFloat64 v, true⟩)
  | .float32, s, some _ => (none, s)
  | .float64, _, none => (none, ⟨Ty.zero .float64, false⟩)
  | .float64, _, some (DriverValue.float64 v) => (none, ⟨v, true⟩)
  | .float64, s, some _ => (none, s)
  | .bool, _, none => (none, ⟨Ty.zero .bool, false⟩)
  | .bool, _, some (DriverValue.bool v) => (none, ⟨v, true⟩)
  | .bool, s, some _ => (none, s)
  | .string, _, none => (none, ⟨Ty.zero .string, false⟩)
  | .string, _, some (DriverValue.string str) => (none, ⟨str, true⟩)
  | .string, _, some (DriverValue.bytes b) => (none, ⟨String.mk b, true⟩)
  | .string, s, some _ => (none, s)
  | .bytes, _, none => (none, ⟨Ty.zero .bytes, false⟩)
  | .bytes, _, some (DriverValue.bytes b) => (none, ⟨b, true⟩)
  | .bytes, _, some (DriverValue.string str) => (none, ⟨str.toList, true⟩)
  | .bytes, s, some _ => (none, s)
  | .time, _, none => (none, ⟨Ty.zero .time, false⟩)
  | .time, _, some (DriverValue.time v) => (none, ⟨v, true⟩)
  | .time, s, some _ => (none, s)
  | .other, s, _ => (some ScanError.scanningTypeMismatch, s)

/-- Whether `Nullable.Scan`'s type assertions accept wire kind `dv` for target
type `t`: the matching 64-bit carrier for each numeric kind, with `string` and
`[]byte` accepting each other. -/
def accepts : Ty → DriverValue → Bool
  | .int, DriverValue.int64 _ => true
  | .int32, DriverValue.int64 _ => true
  | .int64, DriverValue.int64 _ => true
  | .uint, DriverValue.int64 _ => true
  | .uint32, DriverValue.int64 _ => true
  | .uint64, DriverValue.int64 _ => true
  | .float32, DriverValue.float64 _ => true
  | .float64, DriverValue.float64 _ => true
  | .bool, DriverValue.bool _ => true
  | .string, DriverValue.string _ => true
  | .string, DriverValue.bytes _ => true
  | .bytes, DriverValue.bytes _ => true
  | .bytes, DriverValue.string _ => true
  | .time, DriverValue.time _ => true
  | _, _ => false

/-- Containers reachable through the package's public operations:
zero-initialization, the constructors, the setters, `UnmarshalJSON` with any
hook and input, and `Scan` with any source. -/
inductive Reachable : {t : Ty} → NullType t → Prop where
  | init {t : Ty} : Reachable (⟨Ty.zero t, false⟩ : NullType t)
  | newType {t : Ty} (v : t.denote) (ok : Bool) : Reachable (NewType t v ok)
  | typeValue {t : Ty} (v : t.denote) : Reachable (TypeValue t v)
  | typeValueFromPtr {t : Ty} (p : Option t.denote) : Reachable (TypeValueFromPtr t p)
  | nullableValue {t : Ty} (v : t.denote) : Reachable (NullableValue t v)
  | nullableValueFromPtr {t : Ty} (p : Option t.denote) :
      Reachable (NullableValueFromPtr t p)
  | setNull {t : Ty} {s : NullType t} : Reachable s → Reachable (SetNull s)
  | setValue {t : Ty} {s : NullType t} (v : t.denote) :
      Reachable s → Reachable (SetValue s v)
  | setValueFromPtr {t : Ty} {s : NullType t} (p : Option t.denote) :
      Reachable s → Reachable (SetValueFromPtr s p)
  | unmarshal {t : Ty} {s : NullType t} (dec : String → Except Err t.denote)
      (b : String) : Reachable s → Reachable (UnmarshalJSON dec s b).2
  | scan {t : Ty} {s : NullType t} (src : Option DriverValue) :
      Reachable s → Reachable (Scan s src).2

/-- Identity encode hook on Go strings, a legal `CustomJsonMarshaler`. -/
def strEnc (v : String) : Except Err String :=
  Except.ok v

/-- Identity decode hook on Go strings, mutually inverse with `strEnc`. -/
def strDec (b : String) : Except Err String :=
  Except.ok b

/-- Encode hook on Go bools that never produces the `null` literal. -/
def bEnc (v : Bool) : Except Err String :=
  Except.ok (if v then "true" else "false")

/-- Decode hook on Go bools, mutually inverse with `bEnc`. -/
def bDec (b : String) : Except Err Bool :=
  if b = "true" then Except.ok true
  else if b = "false" then Except.ok false
  else Except.error "invalid bool"

/-- C1 fails as stated: `strEnc`/`strDec` are a faithful (mutually inverse)
hook pair on `T = string`, yet for `v = "null"` the marshalled bytes are the
`null` literal, which `UnmarshalJSON` intercepts before the decode hook, so the
round trip lands on an absent container whose raw value is `""`, not `v`. -/
theorem C1_counterexample :
    (∀ v : String, strEnc v = Except.ok v ∧ strDec v = Except.ok v) ∧
    MarshalJSON (t := Ty.string) strEnc (NullableValue Ty.string "null") = Except.ok "null" ∧
    RawValue (UnmarshalJSON (t := Ty.string) strDec (NullableValue Ty.string "null") "null").2 ≠ "null" :=
  ⟨fun v => ⟨rfl, rfl⟩, rfl, by decide⟩

/-- C1 (amended): for a faithful (mutually inverse) hook pair whose encode
output is never the `null` literal, JSON-decoding the bytes produced by
JSON-encoding a present container built from `v` yields a present container
whose raw value is `v`, whatever the decoding container's prior state. -/
theorem C1_amended {t : Ty} (enc : t.denote → Except Err String)
    (dec : String → Except Err t.denote) (v : t.denote) (b : String)
    (s : NullType t)
    (hinv : ∀ x o, enc x = Except.ok o → dec o = Except.ok x)
    (hnn : ∀ x o, enc x = Except.ok o → o ≠ nullString)
    (hb : MarshalJSON enc (NullableValue t v) = Except.ok b) :
    UnmarshalJSON dec s b = (none, NullableValue t v) ∧
    RawValue (UnmarshalJSON dec s b).2 = v := by
  have henc : enc v = Except.ok b := hb
  have hdec := hinv v b henc
  have hnn2 := hnn v b henc
  have h1 : UnmarshalJSON dec s b = (none, NullableValue t v) := by
    unfold UnmarshalJSON
    rw [if_neg hnn2, hdec]
    rfl
  exact ⟨h1, by rw [h1]; rfl⟩

/-- C1 witness: the amended round trip at `T = bool`, `v = true`, with the
faithful pair `bEnc`/`bDec`. -/
theorem C1_amended_witness :
    UnmarshalJSON (t := Ty.bool) bDec (⟨false, false⟩ : NullType Ty.bool) "true" =
      (none, NullableValue Ty.bool true) ∧
    RawValue (UnmarshalJSON (t := Ty.bool) bDec (⟨false, false⟩ : NullType Ty.bool) "true").2 = true := by
  refine C1_amended (t := Ty.bool) bEnc bDec true "true" ⟨false, false⟩ ?_ ?_ rfl
  · intro x o h
    cases x <;> simp [bEnc] at h <;> subst h <;> rfl
  · intro x o h
    cases x <;> simp [bEnc] at h <;> subst h <;> decide

/-- C2: evaluating `Equal` at two absent `Type[int64]` containers returns
`false`, although both are null; the implementation `s.ok && v.ok && ...`
contradicts its own doc comment ("Returns true if both of Type are null or
have equal not null values"), so the code, not the claim, is wrong. -/
theorem C2_equal_both_null_eval :
    IsNull (⟨0, false⟩ : NullType Ty.int64) = true ∧
    Equal (⟨0, false⟩ : NullType Ty.int64) (⟨0, false⟩ : NullType Ty.int64) = false :=
  ⟨rfl, rfl⟩

/-- C3 fails as stated: an absent container of an unsupported type hits the
type switch of `Nullable.Value` before the presence check, so `Value` returns
`ErrTypeIsNotSupported` instead of the nil driver value. -/
theorem C3_counterexample :
    IsNull (⟨0, false⟩ : NullType Ty.other) = true ∧
    Value (⟨0, false⟩ : NullType Ty.other) = Except.error ValueError.typeIsNotSupported :=
  ⟨rfl, rfl⟩

/-- C3 (amended): for every supported type `T` (the twelve enumerated kinds),
`Value` on an absent container returns the nil driver value with no error; for
unsupported `T` the type switch signals `ErrTypeIsNotSupported` regardless of
presence, because the type check precedes the absence check. -/
theorem C3_amended {t : Ty} (s : NullType t) (ht : t ≠ Ty.other)
    (h : s.ok = false) : Value s = Except.ok none := by
  cases t <;> first
    | exact absurd rfl ht
    | simp [Value, toDriver, h]

/-- C3 witness: the amended statement at an absent `Nullable[int64]`. -/
theorem C3_amended_witness :
    Value (⟨0, false⟩ : NullType Ty.int64) = Except.ok none :=
  C3_amended (t := Ty.int64) ⟨0, false⟩ (by decide) rfl

/-- C4 fails as stated: scanning a driver `string` into a present
`Nullable[int]` makes both type assertions fail silently, so `Scan` returns a
nil error and leaves the container holding its prior present state, instead of
signalling `ScanTypeMismatch` and zeroing it. -/
theorem C4_counterexample :
    Scan (⟨5, true⟩ : NullType Ty.int) (some (DriverValue.string "x")) =
      (none, ⟨5, true⟩) :=
  rfl

/-- C4 (amended): when the driver-supplied wire kind neither matches nor
converts to the declared type `T`, `Scan` leaves the container state exactly
unchanged; it returns `ErrScanningTypeMismatch` only when `T` itself is
outside the supported set, and for supported `T` it returns a nil error. -/
theorem C4_amended {t : Ty} (s : NullType t) (dv : DriverValue)
    (hm : accepts t dv = false) :
    Scan s (some dv) =
      if t = Ty.other then (some ScanError.scanningTypeMismatch, s)
      else (none, s) := by
  cases t <;> cases dv <;> first
    | rfl
    | simp [accepts] at hm

/-- C4 witness: the amended statement at a present `Nullable[bool]` scanning a
driver `int64`. -/
theorem C4_amended_witness :
    Scan (⟨true, true⟩ : NullType Ty.bool) (some (DriverValue.int64 9)) =
      (none, (⟨true, true⟩ : NullType Ty.bool)) :=
  C4_amended (t := Ty.bool) ⟨true, true⟩ (DriverValue.int64 9) rfl

/-- C5: marshalling an absent container yields exactly the 4-byte literal
`null` with no error, unmarshalling the literal `null` resets the container to
absent with the zero value and succeeds, and hence the absent state round
trips through JSON to the absent state. -/
theorem C5_absent_roundtrip {t : Ty} (enc : t.denote → Except Err String)
    (dec : String → Except Err t.denote) (s sDst : NullType t)
    (h : s.ok = false) :
    MarshalJSON enc s = Except.ok nullString ∧
    nullString.length = 4 ∧
    UnmarshalJSON dec sDst nullString = (none, ⟨Ty.zero t, false⟩) ∧
    IsNull (UnmarshalJSON dec sDst nullString).2 = true := by
  refine ⟨?_, rfl, ?_, ?_⟩
  · simp [MarshalJSON, h]
  · simp [UnmarshalJSON, DefaultValue]
  · simp [UnmarshalJSON, IsNull]

/-- C5 witness: the absent round trip at `T = int64` with concrete hooks. -/
theorem C5_absent_roundtrip_witness :
    MarshalJSON (fun _ : Ty.denote Ty.int64 => Except.ok "0")
        (⟨7, false⟩ : NullType Ty.int64) = Except.ok nullString ∧
    nullString.length = 4 ∧
    UnmarshalJSON (fun _ : String => (Except.error "e" : Except Err (Ty.denote Ty.int64)))
        (⟨3, true⟩ : NullType Ty.int64) nullString = (none, ⟨Ty.zero Ty.int64, false⟩) ∧
    IsNull (UnmarshalJSON (fun _ : String => (Except.error "e" : Except Err (Ty.denote Ty.int64)))
        (⟨3, true⟩ : NullType Ty.int64) nullString).2 = true :=
  C5_absent_roundtrip (fun _ => Except.ok "0") (fun _ => Except.error "e")
    ⟨7, false⟩ ⟨3, true⟩ rfl

/-- C6: every container reachable through the public operations
(zero-initialization, the constructors, `SetNull`, `SetValue`,
`SetValueFromPtr`, `UnmarshalJSON`, `Scan`) satisfies the invariant that an
absent container stores the zero value of `T`. -/
theorem C6_absent_zero_invariant {t : Ty} {s : NullType t} (hr : Reachable s) :
    s.ok = false → s.value = Ty.zero t := by
  induction hr with
  | init => intro h; rfl
  | newType v ok =>
    intro h
    cases ok
    · rfl
    · exact Bool.noConfusion h
  | typeValue v => intro h; exact Bool.noConfusion h
  | typeValueFromPtr p =>
    intro h
    cases p
    · rfl
    · exact Bool.noConfusion h
  | nullableValue v => intro h; exact Bool.noConfusion h
  | nullableValueFromPtr p =>
    intro h
    cases p
    · rfl
    · exact Bool.noConfusion h
  | setNull hr => intro h; rfl
  | setValue v hr => intro h; exact Bool.noConfusion h
  | setValueFromPtr p hr =>
    intro h
    cases p
    · rfl
    · exact Bool.noConfusion h
  | unmarshal dec b hr ih =>
    intro h
    by_cases hb : b = nullString
    · simp [UnmarshalJSON, hb, DefaultValue]
    · rcases hd : dec b with e | v
      · simp only [UnmarshalJSON, if_neg hb, hd] at h ⊢
        exact ih h
      · simp only [UnmarshalJSON, if_neg hb, hd] at h
        exact Bool.noConfusion h
  | scan src hr ih =>
    intro h
    rcases src with _ | dv
    · cases t <;> first | rfl | exact ih h
    · cases t <;> cases dv <;> first
        | rfl
        | exact ih h
        | exact Bool.noConfusion h

/-- C6 witness: the invariant at the reachable absent container obtained by
clearing a present `Nullable[int64]`. -/
theorem C6_absent_zero_invariant_witness :
    (SetNull (NullableValue Ty.int64 5)).value = Ty.zero Ty.int64 :=
  C6_absent_zero_invariant
    (Reachable.setNull (Reachable.nullableValue (t := Ty.int64) 5)) rfl

/-- C7: for every supported type `T` and every prior state, scanning the
driver null marker sets the container absent with the zero value of `T` and
returns no error. -/
theorem C7_scan_null_marker {t : Ty} (s : NullType t) (ht : t ≠ Ty.other) :
    Scan s none = (none, ⟨Ty.zero t, false⟩) ∧
    RawValue (Scan s none).2 = Ty.zero t ∧
    IsNull (Scan s none).2 = true := by
  cases t <;> first
    | exact absurd rfl ht
    | exact ⟨rfl, rfl, rfl⟩

/-- C7 witness: scanning nil into a previously present `Nullable[string]`. -/
theorem C7_scan_null_marker_witness :
    Scan (⟨"abc", true⟩ : NullType Ty.string) none =
      (none, ⟨Ty.zero Ty.string, false⟩) ∧
    RawValue (Scan (⟨"abc", true⟩ : NullType Ty.string) none).2 = Ty.zero Ty.string ∧
    IsNull (Scan (⟨"abc", true⟩ : NullType Ty.string) none).2 = true :=
  C7_scan_null_marker (t := Ty.string) ⟨"abc", true⟩ (by decide)

/-- C8: when the decode hook fails on input other than the `null` literal,
`UnmarshalJSON` propagates exactly that error and leaves the container state
(presence flag and stored value) untouched. -/
theorem C8_decode_error_atomic {t : Ty} (dec : String → Except Err t.denote)
    (s : NullType t) (b : String) (e : Err) (hb : b ≠ nullString)
    (hd : dec b = Except.error e) :
    UnmarshalJSON dec s b = (some e, s) := by
  unfold UnmarshalJSON
  rw [if_neg hb, hd]

/-- C8 witness: a failing decode hook on a present `Nullable[int64]`. -/
theorem C8_decode_error_atomic_witness :
    UnmarshalJSON (fun _ : String => (Except.error "boom" : Except Err (Ty.denote Ty.int64)))
      (⟨5, true⟩ : NullType Ty.int64) "x" = (some "boom", ⟨5, true⟩) :=
  C8_decode_error_atomic (fun _ => Except.error "boom") ⟨5, true⟩ "x" "boom"
    (by decide) rfl

/-- C9: `Value` on a present container widens every narrower numeric kind to
the 64-bit driver carrier with no error: `int`, `int32` and `uint32` values
pass to `int64` exactly, `uint` and `uint64` values are reduced modulo
2^64 = 18446744073709551616 into the signed 64-bit range, `float32` values
widen to `float64` preserving the stored rational, and the 64-bit kinds pass
through unchanged. -/
theorem C9_value_widening :
    (∀ v : Int, Value (⟨v, true⟩ : NullType Ty.int) =
      Except.ok (some (DriverValue.int64 v))) ∧
    (∀ v : Int, Value (⟨v, true⟩ : NullType Ty.int32) =
      Except.ok (some (DriverValue.int64 v))) ∧
    (∀ n : Nat, ∃ m : Int, Value (⟨n, true⟩ : NullType Ty.uint) =
      Except.ok (some (DriverValue.int64 m)) ∧
      m % 18446744073709551616 = (n : Int) % 18446744073709551616 ∧
      -9223372036854775808 ≤ m ∧ m < 9223372036854775808) ∧
    (∀ n : Nat, Value (⟨n, true⟩ : NullType Ty.uint32) =
      Except.ok (some (DriverValue.int64 (Int.ofNat n)))) ∧
    (∀ n : Nat, ∃ m : Int, Value (⟨n, true⟩ : NullType Ty.uint64) =
      Except.ok (some (DriverValue.int64 m)) ∧
      m % 18446744073709551616 = (n : Int) % 18446744073709551616 ∧
      -9223372036854775808 ≤ m ∧ m < 9223372036854775808) ∧
    (∀ x : F32, Value (⟨x, true⟩ : NullType Ty.float32) =
      Except.ok (some (DriverValue.float64 ⟨x.q⟩))) ∧
    (∀ v : Int, Value (⟨v, true⟩ : NullType Ty.int64) =
      Except.ok (some (DriverValue.int64 v))) ∧
    (∀ x : F64, Value (⟨x, true⟩ : NullType Ty.float64) =
      Except.ok (some (DriverValue.float64 x))) := by
  refine ⟨fun v => rfl, fun v => rfl, fun n => ⟨int64OfUnsigned n, rfl, ?_, ?_, ?_⟩,
    fun n => rfl, fun n => ⟨int64OfUnsigned n, rfl, ?_, ?_, ?_⟩,
    fun x => rfl, fun v => rfl, fun x => rfl⟩ <;>
  · unfold int64OfUnsigned
    omega

/-- C10: `RawValue` on an absent container returns the zero value of `T`,
whatever residual value the internal slot holds. -/
theorem C10_rawValue_absent_zero {t : Ty} (v : t.denote) :
    RawValue (⟨v, false⟩ : NullType t) = Ty.zero t :=
  rfl

end Alsnull
